import Mathlib

/-!
# Verification of the ChainMind AI demand-forecasting service

Shallow embedding of the Python source under `src/ai-service/` into Lean 4:

* `config.py`              → the constants `ROLLING_WINDOWS`, `MIN_HISTORY_LEN`,
                             `SAFETY_FACTOR`.
* `utils/feature_engineering.py` → `extract_features`, `_encode_city`.
* `services/predictor.py`  → `predict`, `_heuristic_predict`.
* `services/trainer.py`    → `_build_sliding_windows` and the data-source
                             selection stage of `train_model`.

Modelling conventions:

* Python floats are embedded as `ℚ`.  All arithmetic in the embedded code is
  exact on the concrete inputs appearing in the claims, and the claims are
  about exact arithmetic identities, so no floating-point rounding model is
  needed.  Python's `round(x, n)` (banker's rounding, ties to even) is
  embedded as `pyRound`.
* `np.std(w, ddof=0)` is `sqrt` of the population variance.  The square root
  of a rational is irrational in general, so the feature extractor is
  parameterised by the square-root function `sqrtQ : ℚ → ℚ` used for the two
  `rolling_std_*` features.  No claim depends on the value of a standard
  deviation, only on its presence, so every theorem quantifies over `sqrtQ`.
* Python dicts (`payload`, the feature dict) keep insertion order; they are
  embedded as `List (String × ℚ)` with `lookupD` playing the role of
  `dict.get(k, default)`.  Missing payload keys are `Option` fields.
* `datetime.date` values are consumed by the feature extractor only through
  `weekday()`, `.month` and `.isocalendar()[1]`; a date is therefore embedded
  as the record `RefDate` of those three (already extracted) numbers.
* The trained XGBoost regressor is an opaque function `List ℚ → ℚ` inside
  `Artifact`; no claim depends on its values.
-/

/-! ## `config.py` -/

/-- `ROLLING_WINDOWS = [7, 14]` (days for rolling mean / std). -/
def ROLLING_WINDOWS : List ℕ := [7, 14]

/-- `MIN_HISTORY_LEN = 14` (minimum sales history length). -/
def MIN_HISTORY_LEN : ℕ := 14

/-- `SAFETY_FACTOR = 1.25` (25 % buffer over lead-time demand). -/
def SAFETY_FACTOR : ℚ := 5 / 4

/-! ## Python `round` (banker's rounding) and numeric helpers -/

/-- Python's `round(q)` to the nearest integer, ties going to the even
integer (banker's rounding). -/
def pyRoundInt (q : ℚ) : ℤ :=
  let f := ⌊q⌋
  let r := q - f
  if r < 1 / 2 then f
  else if 1 / 2 < r then f + 1
  else if f % 2 = 0 then f else f + 1

/-- Python's `round(q, ndigits)`. -/
def pyRound (q : ℚ) (ndigits : ℕ) : ℚ :=
  (pyRoundInt (q * 10 ^ ndigits) : ℚ) / 10 ^ ndigits

/-- `np.mean` of a list of rationals (`sum / length`). -/
def listMean (l : List ℚ) : ℚ := l.sum / l.length

/-- `arr[-n:]` — the last `n` elements (the whole list when `n ≥ length`),
matching numpy slicing. -/
def lastN (l : List ℚ) (n : ℕ) : List ℚ := l.drop (l.length - n)

/-- Population variance (`ddof=0`), the quantity under the square root in
`np.std(w, ddof=0)`. -/
def popVar (l : List ℚ) : ℚ :=
  let m := listMean l
  listMean (l.map fun x => (x - m) ^ 2)

/-- `dict.get(k, d)` on an insertion-ordered association list. -/
def lookupD (l : List (String × ℚ)) (k : String) (d : ℚ) : ℚ :=
  match l.find? (fun p => p.1 == k) with
  | some p => p.2
  | none => d

/-! ## `utils/feature_engineering.py` -/

/-- `CITY_MAP` — fixed alphabetical city encoder. -/
def CITY_MAP : List (String × ℚ) :=
  [("bangalore", 0), ("chennai", 1), ("delhi", 2), ("mumbai", 3), ("pune", 4)]

/-- `CITY_DEFAULT = -1` (unknown city). -/
def CITY_DEFAULT : ℚ := -1

/-- `_encode_city(city)` — lower-cased, trimmed lookup with `-1` default. -/
def _encode_city (city : Option String) : ℚ :=
  match city with
  | none => CITY_DEFAULT
  | some c => lookupD CITY_MAP c.trim.toLower CITY_DEFAULT

/-- A reference date, embedded as the three values the Python code extracts
from it: `ref_date.weekday()` (0 = Monday), `ref_date.month` (1–12) and
`ref_date.isocalendar()[1]` (ISO week of year). -/
structure RefDate where
  weekday : ℚ
  month : ℚ
  weekOfYear : ℚ

/-- The left-padding step of `extract_features`: if the series is shorter
than `MIN_HISTORY_LEN`, left-pad it with its own mean (`0` if empty) —
`np.pad(arr, (MIN_HISTORY_LEN - len(arr), 0), constant_values=pad_val)`. -/
def padSeries (sales_history : List ℚ) : List ℚ :=
  if sales_history.length < MIN_HISTORY_LEN then
    let pad_val := if 0 < sales_history.length then listMean sales_history else 0
    List.replicate (MIN_HISTORY_LEN - sales_history.length) pad_val ++ sales_history
  else sales_history

/-- `extract_features(sales_history, current_stock, lead_time_days,
day_offset, city, ref_date)` — builds the feature dict, in the source's
insertion order.  The dict read `features["rolling_mean_7"]` at the end of
the source is embedded as `lookupD` on the rolling prefix. -/
def extract_features (sqrtQ : ℚ → ℚ) (sales_history : List ℚ)
    (current_stock : ℚ) (lead_time_days : ℚ) (day_offset : ℕ)
    (city : Option String) (ref_date : Option RefDate) : List (String × ℚ) :=
  let arr := padSeries sales_history
  let rolling := ROLLING_WINDOWS.foldr (fun w acc =>
    (s!"rolling_mean_{w}", listMean (lastN arr w)) ::
    (s!"rolling_std_{w}", sqrtQ (popVar (lastN arr w))) :: acc) []
  let w30 := if 30 ≤ arr.length then lastN arr 30 else arr
  let calendar : List (String × ℚ) :=
    match ref_date with
    | some d => [("day_of_week", d.weekday), ("month", d.month),
                 ("week_of_year", d.weekOfYear)]
    | none => [("day_of_week", (((arr.length + day_offset) % 7 : ℕ) : ℚ)),
               ("month", 1), ("week_of_year", 1)]
  let mean_7 := lookupD rolling "rolling_mean_7" 0
  rolling ++
    [("rolling_mean_30", listMean w30),
     ("lag_7", if 7 ≤ arr.length then arr.getD (arr.length - 7) 0
               else arr.headD 0),
     ("lag_30", if 30 ≤ arr.length then arr.getD (arr.length - 30) 0
                else arr.headD 0),
     ("trend", listMean (lastN arr (ROLLING_WINDOWS.getD 0 7)) -
               listMean (arr.take (ROLLING_WINDOWS.getD 0 7))),
     ("last_day_sales", arr.getLastD 0)] ++
    calendar ++
    [("city_encoded", _encode_city city),
     ("current_stock", current_stock),
     ("lead_time_days", lead_time_days),
     ("stock_demand_ratio",
        if 0 < mean_7 then current_stock / mean_7 else 999)]

/-- The documented fixed feature-name set, in the order the source inserts
the keys. -/
def FEATURE_KEYS : List String :=
  ["rolling_mean_7", "rolling_std_7", "rolling_mean_14", "rolling_std_14",
   "rolling_mean_30", "lag_7", "lag_30", "trend", "last_day_sales",
   "day_of_week", "month", "week_of_year", "city_encoded",
   "current_stock", "lead_time_days", "stock_demand_ratio"]

/-! ## `services/predictor.py` -/

/-- The persisted model artifact: the trained regressor (opaque function
from a feature row to a prediction) and its feature-name schema. -/
structure Artifact where
  model : List ℚ → ℚ
  feature_names : List String

/-- The prediction payload.  `Option` fields model keys that may be absent
from the incoming dict (`payload.get(...)`). -/
structure Payload where
  salesHistory : Option (List ℚ)
  currentStock : Option ℚ
  leadTimeDays : Option ℚ
  productId : Option String
  city : Option String

/-- The prediction response dict. -/
structure PredResult where
  predictedDailyDemand : ℚ
  daysToStockout : ℤ
  suggestedReorderQty : ℤ
  confidence : ℚ
  method : String
  productId : Option String
  city : Option String
deriving DecidableEq

/-- `_heuristic_predict` — 7-day moving-average fallback.  The stock and
lead-time arguments are unused, as in the source. -/
def _heuristic_predict (sales_history : List ℚ) (current_stock : ℚ)
    (lead_time : ℚ) : ℚ :=
  let window := if 7 ≤ sales_history.length then lastN sales_history 7
                else sales_history
  if window = [] then 0 else listMean window

/-- The reorder-quantity post-processing step of `predict`:
`max(0, math.ceil(predicted_demand * lead_time * SAFETY_FACTOR))`. -/
def suggestedQty (predicted_demand : ℚ) (lead_time : ℚ) : ℤ :=
  max 0 ⌈predicted_demand * lead_time * SAFETY_FACTOR⌉

/-! ## `services/trainer.py` — dataset-building stage

The claims about the trainer concern only its data-selection stage
(historical export → sliding windows → fallback / supplementation with
synthetic data), not the XGBoost fit.  The fit, the evaluation metrics and
the artifact write are therefore not embedded; the synthetically generated
DataFrame (`generate_dataset`, a seeded random generator) enters only as an
opaque list parameter `synth`. -/

/-- One row of the historical JSON export
(`{ productId, city, date, quantitySold }`).  Dates are ISO-8601 strings in
the source, whose lexicographic order is chronological; they are embedded
as naturals with the same order. -/
structure SalesRow where
  productId : String
  city : String
  date : ℕ
  quantitySold : ℚ
deriving DecidableEq

/-- One sliding-window training sample
(a row of the DataFrame built by `_build_sliding_windows`).  The
`currentStock` / `leadTimeDays` columns — drawn from a seeded random
generator in the source — are not embedded: no claim depends on them. -/
structure TrainSample where
  salesHistory : List ℚ
  nextDayDemand : ℚ
  city : String
  ref_date : ℕ
deriving DecidableEq

/-- The grouping key `f"{r['productId']}|{r['city']}"`. -/
def groupKey (r : SalesRow) : String := r.productId ++ "|" ++ r.city

/-- Stable insertion of a row into a date-sorted list (rows with equal
dates keep their original relative order, as with Python's stable sort). -/
def insertByDate (r : SalesRow) : List SalesRow → List SalesRow
  | [] => [r]
  | x :: xs => if r.date < x.date then r :: x :: xs else x :: insertByDate r xs

/-- `series.sort(key=lambda r: r["date"])` — stable sort by date. -/
def sortByDate (l : List SalesRow) : List SalesRow :=
  l.foldl (fun acc r => insertByDate r acc) []

/-- The per-group body of `_build_sliding_windows`: sort the group's rows by
date, then slide a `window_size`-day window; the label is the next day after
the window.  Groups shorter than `window_size + 1` are skipped. -/
def slidingWindowsGroup (series : List SalesRow) (window_size : ℕ) :
    List TrainSample :=
  let sorted := sortByDate series
  let sales := sorted.map (·.quantitySold)
  let dates := sorted.map (·.date)
  let city := (sorted.headD ⟨"", "", 0, 0⟩).city
  if sales.length < window_size + 1 then []
  else
    (List.range (sales.length - window_size)).map fun i =>
      { salesHistory := (sales.drop i).take window_size
        nextDayDemand := sales.getD (i + window_size) 0
        city := city
        ref_date := dates.getD (i + window_size) 0 }

/-- `_build_sliding_windows(rows, window_size)` — group rows by
product × city (keys in first-appearance order, as a Python dict), then
build each group's sliding-window samples. -/
def _build_sliding_windows (rows : List SalesRow) (window_size : ℕ) :
    List TrainSample :=
  let keys := rows.foldl
    (fun ks r => if groupKey r ∈ ks then ks else ks ++ [groupKey r]) []
  keys.foldr
    (fun k acc =>
      slidingWindowsGroup (rows.filter fun r => groupKey r == k) window_size
        ++ acc) []

/-- The data-selection stage of `train_model` (steps 1–2 of the pipeline):
`historical` models the result of `_load_historical_json` (`none` when the
export file is missing or empty), `synth` the DataFrame produced by
`generate_dataset`.  Returns the training DataFrame and the `data_source`
tag. -/
def train_model_data (historical : Option (List SalesRow))
    (synth : List TrainSample) : List TrainSample × String :=
  match historical with
  | some rows =>
      if 500 ≤ rows.length then
        let df := _build_sliding_windows rows 30
        if df.length < 200 then (df ++ synth, "historical+synthetic")
        else (df, "historical")
      else (synth, "synthetic")
  | none => (synth, "synthetic")

/-- `predict(payload)` — validation, model/heuristic branch, and the shared
post-processing.  `ValueError` is embedded as `Except.error` with the
source's message.  The artifact parameter models the result of
`_load_model()` (`None` when no model file exists); `today` models
`datetime.date.today()`. -/
def predict (sqrtQ : ℚ → ℚ) (artifact : Option Artifact) (today : RefDate)
    (payload : Payload) : Except String PredResult :=
  let sales_history := payload.salesHistory.getD []
  let current_stock := payload.currentStock.getD 0
  let lead_time := payload.leadTimeDays.getD 7
  if sales_history = [] then
    Except.error "salesHistory must be a non-empty list of numbers"
  else if current_stock < 0 then
    Except.error "currentStock must be non-negative"
  else if lead_time ≤ 0 then
    Except.error "leadTimeDays must be positive"
  else
    let dcm : ℚ × ℚ × String :=
      match artifact with
      | some a =>
          let feats := extract_features sqrtQ sales_history current_stock
            lead_time 0 payload.city (some today)
          let X := a.feature_names.map fun k => lookupD feats k 0
          let predicted_demand := a.model X
          let rolling_std := lookupD feats "rolling_std_7" 1
          let rolling_mean := lookupD feats "rolling_mean_7" 1
          let cv := if 0 < rolling_mean then rolling_std / rolling_mean else 1
          (predicted_demand, pyRound (max 0 (min 1 (1 - cv))) 3, "xgboost")
      | none =>
          (_heuristic_predict sales_history current_stock lead_time,
           1 / 2, "heuristic")
    let predicted_demand := max 0 (pyRound dcm.1 2)
    let days_to_stockout : ℤ :=
      if 0 < predicted_demand then max 0 ⌊current_stock / predicted_demand⌋
      else 999
    Except.ok
      { predictedDailyDemand := predicted_demand
        daysToStockout := days_to_stockout
        suggestedReorderQty := suggestedQty predicted_demand lead_time
        confidence := dcm.2.1
        method := dcm.2.2
        productId := match payload.productId with
                     | some s => if s = "" then none else some s
                     | none => none
        city := match payload.city with
                | some s => if s = "" then none else some s
                | none => none }

/-! ## Supporting lemmas: rounding bounds and evaluation -/

theorem pyRoundInt_nonneg {q : ℚ} (h : 0 ≤ q) : 0 ≤ pyRoundInt q := by
  have hf : 0 ≤ ⌊q⌋ := Int.floor_nonneg.2 h
  simp only [pyRoundInt]
  split_ifs <;> omega

theorem pyRoundInt_le {q : ℚ} {n : ℤ} (h : q ≤ n) : pyRoundInt q ≤ n := by
  have hf : ⌊q⌋ ≤ n := by exact_mod_cast (Int.floor_le q).trans h
  have hstep : ¬ (q - ⌊q⌋ < 1 / 2) → ⌊q⌋ + 1 ≤ n := by
    intro hr
    have h2 : (1 : ℚ) / 2 ≤ q - ⌊q⌋ := le_of_not_lt hr
    have h3 : (⌊q⌋ : ℚ) < q := by linarith
    have h4 : ⌊q⌋ < n := by exact_mod_cast h3.trans_le h
    omega
  simp only [pyRoundInt]
  split_ifs with h1 h2 h3
  · exact hf
  · exact hstep h1
  · exact hf
  · exact hstep h1

theorem pyRound_nonneg {q : ℚ} (n : ℕ) (h : 0 ≤ q) : 0 ≤ pyRound q n := by
  unfold pyRound
  apply div_nonneg _ (by positivity)
  exact_mod_cast pyRoundInt_nonneg (by positivity)

theorem pyRound_le_one {q : ℚ} (n : ℕ) (h : q ≤ 1) : pyRound q n ≤ 1 := by
  unfold pyRound
  rw [div_le_one (by positivity)]
  have h1 : q * 10 ^ n ≤ (((10 : ℤ) ^ n : ℤ) : ℚ) := by
    push_cast
    exact mul_le_of_le_one_left (by positivity) h
  exact_mod_cast pyRoundInt_le h1

theorem pyRoundInt_eq_floor {q : ℚ} {f : ℤ} (hf : ⌊q⌋ = f)
    (h : q - f < 1 / 2) : pyRoundInt q = f := by
  simp only [pyRoundInt, hf]
  exact if_pos h

theorem pyRound_eval {q : ℚ} {n : ℕ} {f : ℤ} (hf : ⌊q * 10 ^ n⌋ = f)
    (h : q * 10 ^ n - f < 1 / 2) : pyRound q n = f / 10 ^ n := by
  unfold pyRound
  rw [pyRoundInt_eq_floor hf h]

/-! ## Supporting lemmas: sorting and sliding-window counts -/

theorem insertByDate_length (r : SalesRow) (l : List SalesRow) :
    (insertByDate r l).length = l.length + 1 := by
  induction l with
  | nil => rfl
  | cons x xs ih =>
      simp only [insertByDate]
      split_ifs <;> simp [ih]

theorem sortByDate_length (l : List SalesRow) :
    (sortByDate l).length = l.length := by
  suffices h : ∀ acc : List SalesRow,
      (l.foldl (fun acc r => insertByDate r acc) acc).length =
        acc.length + l.length by
    simpa using h []
  induction l with
  | nil => intro acc; simp
  | cons x xs ih =>
      intro acc
      simp only [List.foldl_cons, ih, insertByDate_length, List.length_cons]
      omega

theorem slidingWindowsGroup_length (series : List SalesRow) (w : ℕ)
    (h : w + 1 ≤ series.length) :
    (slidingWindowsGroup series w).length = series.length - w := by
  unfold slidingWindowsGroup
  have hlen : ((sortByDate series).map (·.quantitySold)).length =
      series.length := by
    simp [sortByDate_length]
  rw [if_neg (by omega)]
  simp [hlen]

/-! ## C7 — reorder quantity monotone in lead time and demand -/

/-- **C7.** Holding the other input fixed, the suggested reorder quantity
`max(0, ceil(demand × lead_time × SAFETY_FACTOR))` computed by `predict` is
monotonically non-decreasing in the lead time and in the predicted daily
demand, for all non-negative demand and positive lead time. -/
theorem C7_suggestedQty_monotone (d d' l l' : ℚ) (hd : 0 ≤ d) (hdd : d ≤ d')
    (hl : 0 < l) (hll : l ≤ l') :
    suggestedQty d l ≤ suggestedQty d l' ∧
      suggestedQty d l ≤ suggestedQty d' l := by
  constructor
  · apply max_le_max le_rfl
    apply Int.ceil_le_ceil
    have : d * l ≤ d * l' := mul_le_mul_of_nonneg_left hll hd
    have hsf : (0 : ℚ) ≤ SAFETY_FACTOR := by norm_num [SAFETY_FACTOR]
    exact mul_le_mul_of_nonneg_right this hsf
  · apply max_le_max le_rfl
    apply Int.ceil_le_ceil
    have : d * l ≤ d' * l := mul_le_mul_of_nonneg_right hdd hl.le
    have hsf : (0 : ℚ) ≤ SAFETY_FACTOR := by norm_num [SAFETY_FACTOR]
    exact mul_le_mul_of_nonneg_right this hsf

/-- Witness for C7 at demand 1 ≤ 2, lead time 1 ≤ 3. -/
theorem C7_suggestedQty_monotone_witness :
    suggestedQty 1 1 ≤ suggestedQty 1 3 ∧ suggestedQty 1 1 ≤ suggestedQty 2 1 :=
  C7_suggestedQty_monotone 1 2 1 3 (by norm_num) (by norm_num) (by norm_num)
    (by norm_num)

/-! ## C1 — historical export with 50 rows for one product/location pair -/

/-- A historical export of exactly 50 rows, all for the single group
`p1 × mumbai`, with consecutive dates and constant demand 10. -/
def rows50 : List SalesRow :=
  (List.range 50).map fun i => ⟨"p1", "mumbai", i, 10⟩

set_option maxRecDepth 8000 in
/-- **C1, counterexample.** With an export of only 50 rows for one
product/location pair, the sliding-window builder would indeed produce
20 samples for that group — but `train_model` never supplements them: the
export has fewer than 500 raw rows, so the historical rows are dropped
entirely and the training data is purely synthetic (`data_source =
"synthetic"`, not `"historical+synthetic"` as the claim states). -/
theorem C1_counterexample :
    (train_model_data (some rows50) []).2 = "synthetic" ∧
      (train_model_data (some rows50) []).1 = [] ∧
      (train_model_data (some rows50) []).2 ≠ "historical+synthetic" ∧
      (_build_sliding_windows rows50 30).length = 20 := by
  refine ⟨?_, ?_, ?_, ?_⟩ <;> decide

/-- **C1, amended.** If the historical export contains only 50 rows for a
single product/location pair (window size 30), the Dataset Builder's
sliding-window stage yields exactly 20 (hence at most 20) samples for that
group; however, because the export has fewer than 500 raw rows,
`train_model` does not supplement the historical samples: it discards them
and trains on synthetic data alone.  Supplementation (concatenation of
historical and synthetic samples, `data_source = "historical+synthetic"`)
happens exactly when the export has at least 500 raw rows and the
sliding-window stage produces fewer than 200 samples. -/
theorem C1_amended :
    (∀ series : List SalesRow, series.length = 50 →
        (slidingWindowsGroup series 30).length = 20) ∧
      (∀ (rows : List SalesRow) (synth : List TrainSample),
        (train_model_data (some rows) synth).2 = "historical+synthetic" ↔
          500 ≤ rows.length ∧ (_build_sliding_windows rows 30).length < 200) ∧
      (∀ (rows : List SalesRow) (synth : List TrainSample),
        rows.length < 500 →
          train_model_data (some rows) synth = (synth, "synthetic")) := by
  refine ⟨?_, ?_, ?_⟩
  · intro series hlen
    rw [slidingWindowsGroup_length series 30 (by omega), hlen]
  · intro rows synth
    simp only [train_model_data]
    split_ifs with h1 h2
    · exact iff_of_true rfl ⟨h1, h2⟩
    · constructor
      · intro h
        have h' : ("historical" : String) = "historical+synthetic" := h
        exact absurd h' (by decide)
      · rintro ⟨-, hlt⟩; exact absurd hlt h2
    · constructor
      · intro h
        have h' : ("synthetic" : String) = "historical+synthetic" := h
        exact absurd h' (by decide)
      · rintro ⟨hge, -⟩; exact absurd hge h1
  · intro rows synth h
    simp only [train_model_data]
    rw [if_neg (by omega)]

/-- Witness for C1 at the concrete 50-row export. -/
theorem C1_witness :
    (slidingWindowsGroup rows50 30).length = 20 ∧
      train_model_data (some rows50) [] = ([], "synthetic") :=
  ⟨C1_amended.1 rows50 (by decide), C1_amended.2.2 rows50 [] (by decide)⟩

/-! ## C6 — fixed feature-key set, total extraction -/

/-- **C6.** For every sales series (in particular every series of length
≥ 1) and any stock, lead time, day offset, city and reference date,
`extract_features` is total (it is a Lean function, so it cannot raise) and
returns a feature dict whose key list is exactly the documented fixed set
`FEATURE_KEYS` of 16 names, independently of the series length — series
shorter than `MIN_HISTORY_LEN` produce the same rolling-window keys as
longer ones.  Values are rationals, so no value is NaN or Inf: the two
divisions in the extractor (`stock_demand_ratio` and the pad-value mean)
are guarded in the source, and all remaining operations are arithmetic. -/
theorem C6_extract_features_keys :
    (∀ (sqrtQ : ℚ → ℚ) (sales : List ℚ) (stock lead : ℚ) (offs : ℕ)
        (city : Option String) (rd : Option RefDate),
        (extract_features sqrtQ sales stock lead offs city rd).map Prod.fst =
          FEATURE_KEYS) ∧
      FEATURE_KEYS.length = 16 ∧ FEATURE_KEYS.Nodup := by
  refine ⟨fun sqrtQ sales stock lead offs city rd => ?_, by decide, by decide⟩
  cases rd <;> rfl

/-! ## Supporting lemmas: reading entries of the feature dict -/

theorem lookupD_extract_lag7 (sqrtQ : ℚ → ℚ) (sales : List ℚ)
    (stock lead : ℚ) (offs : ℕ) (city : Option String) (rd : Option RefDate)
    (d : ℚ) :
    lookupD (extract_features sqrtQ sales stock lead offs city rd) "lag_7" d =
      (if 7 ≤ (padSeries sales).length then
        (padSeries sales).getD ((padSeries sales).length - 7) 0
       else (padSeries sales).headD 0) := rfl

theorem lookupD_extract_lag30 (sqrtQ : ℚ → ℚ) (sales : List ℚ)
    (stock lead : ℚ) (offs : ℕ) (city : Option String) (rd : Option RefDate)
    (d : ℚ) :
    lookupD (extract_features sqrtQ sales stock lead offs city rd) "lag_30" d =
      (if 30 ≤ (padSeries sales).length then
        (padSeries sales).getD ((padSeries sales).length - 30) 0
       else (padSeries sales).headD 0) := rfl

theorem lookupD_extract_mean7 (sqrtQ : ℚ → ℚ) (sales : List ℚ)
    (stock lead : ℚ) (offs : ℕ) (city : Option String) (rd : Option RefDate)
    (d : ℚ) :
    lookupD (extract_features sqrtQ sales stock lead offs city rd)
      "rolling_mean_7" d = listMean (lastN (padSeries sales) 7) := rfl

theorem lookupD_extract_std7 (sqrtQ : ℚ → ℚ) (sales : List ℚ)
    (stock lead : ℚ) (offs : ℕ) (city : Option String) (rd : Option RefDate)
    (d : ℚ) :
    lookupD (extract_features sqrtQ sales stock lead offs city rd)
      "rolling_std_7" d = sqrtQ (popVar (lastN (padSeries sales) 7)) := rfl

/-! ## Supporting lemmas: the padding step -/

theorem padSeries_of_le {sales : List ℚ} (h : 14 ≤ sales.length) :
    padSeries sales = sales := by
  simp only [padSeries, MIN_HISTORY_LEN]
  rw [if_neg (by omega)]

theorem padSeries_of_lt {sales : List ℚ} (h0 : 0 < sales.length)
    (h : sales.length < 14) :
    padSeries sales =
      List.replicate (14 - sales.length) (listMean sales) ++ sales := by
  simp only [padSeries, MIN_HISTORY_LEN]
  rw [if_pos h, if_pos h0]

theorem getD_replicate {α : Type} {a d : α} {k n : ℕ} (h : n < k) :
    (List.replicate k a).getD n d = a := by
  rw [List.getD_eq_getElem _ _ (by simpa using h)]
  simp

/-! ## C5 — lag features -/

/-- **C5, counterexample.** For the series `[1, 2, 3]` (shorter than both
lag distances), both `lag_7` and `lag_30` equal `2` — the pad value, i.e.
the mean of the series — and not the series' first element `1` as the
claim states. -/
theorem C5_counterexample :
    lookupD (extract_features (fun _ => 0) [1, 2, 3] 0 1 0 none none)
        "lag_7" 0 = 2 ∧
      lookupD (extract_features (fun _ => 0) [1, 2, 3] 0 1 0 none none)
        "lag_30" 0 = 2 ∧
      ([1, 2, 3] : List ℚ).headD 0 = 1 ∧ (2 : ℚ) ≠ 1 := by
  have hm : listMean [1, 2, 3] = 2 := by norm_num [listMean]
  have hp : padSeries [1, 2, 3] = List.replicate 11 2 ++ [1, 2, 3] := by
    rw [padSeries_of_lt (by norm_num) (by norm_num)]
    norm_num [hm]
  refine ⟨?_, ?_, rfl, by norm_num⟩
  · rw [lookupD_extract_lag7, hp]; decide
  · rw [lookupD_extract_lag30, hp]; decide

/-- **C5, amended.** The lag features of `extract_features` are taken from
the *left-padded* array, which repeats the series mean up to length 14
before the lags are read.  Consequently: `lag_7` is the series value
exactly 7 points back whenever the series has at least 7 points, and
`lag_30` the value exactly 30 points back whenever it has at least 30;
`lag_30` falls back to the series' first element only for series of length
14–29 (where no padding occurs); and for series shorter than the minimum
history length 14 the out-of-range lags (`lag_7` for length < 7, `lag_30`
for length < 14) equal the series *mean* — the pad value — not its first
element. -/
theorem C5_amended (sqrtQ : ℚ → ℚ) (sales : List ℚ) (stock lead : ℚ)
    (offs : ℕ) (city : Option String) (rd : Option RefDate) :
    (7 ≤ sales.length →
      lookupD (extract_features sqrtQ sales stock lead offs city rd)
        "lag_7" 0 = sales.getD (sales.length - 7) 0) ∧
    (30 ≤ sales.length →
      lookupD (extract_features sqrtQ sales stock lead offs city rd)
        "lag_30" 0 = sales.getD (sales.length - 30) 0) ∧
    (14 ≤ sales.length → sales.length < 30 →
      lookupD (extract_features sqrtQ sales stock lead offs city rd)
        "lag_30" 0 = sales.headD 0) ∧
    (0 < sales.length → sales.length < 7 →
      lookupD (extract_features sqrtQ sales stock lead offs city rd)
        "lag_7" 0 = listMean sales) ∧
    (0 < sales.length → sales.length < 14 →
      lookupD (extract_features sqrtQ sales stock lead offs city rd)
        "lag_30" 0 = listMean sales) := by
  refine ⟨fun h7 => ?_, fun h30 => ?_, fun h14 hlt => ?_,
    fun h0 hlt => ?_, fun h0 hlt => ?_⟩
  · rw [lookupD_extract_lag7]
    by_cases h14 : 14 ≤ sales.length
    · rw [padSeries_of_le h14, if_pos h7]
    · push_neg at h14
      rw [padSeries_of_lt (by omega) h14]
      have hlen : (List.replicate (14 - sales.length) (listMean sales) ++
          sales).length = 14 := by
        simp; omega
      rw [hlen, if_pos (by norm_num)]
      rw [List.getD_append_right _ _ _ _ (by simp; omega)]
      congr 1
      simp
      omega
  · have h14 : 14 ≤ sales.length := by omega
    rw [lookupD_extract_lag30, padSeries_of_le h14, if_pos h30]
  · rw [lookupD_extract_lag30, padSeries_of_le h14, if_neg (by omega)]
  · rw [lookupD_extract_lag7, padSeries_of_lt h0 (by omega)]
    have hlen : (List.replicate (14 - sales.length) (listMean sales) ++
        sales).length = 14 := by
      simp; omega
    rw [hlen, if_pos (by norm_num)]
    rw [List.getD_append _ _ _ _ (by simp; omega)]
    exact getD_replicate (by simp; omega)
  · rw [lookupD_extract_lag30, padSeries_of_lt h0 hlt]
    have hlen : (List.replicate (14 - sales.length) (listMean sales) ++
        sales).length = 14 := by
      simp; omega
    rw [hlen, if_neg (by norm_num)]
    rw [show 14 - sales.length = (13 - sales.length) + 1 by omega,
      List.replicate_succ, List.cons_append, List.headD_cons]

/-- Witness for C5 on a 30-point constant series: both lags hit the exact
in-range positions. -/
theorem C5_witness :
    lookupD
        (extract_features (fun _ => 0) (List.replicate 30 1) 5 2 0 none none)
        "lag_7" 0 = 1 ∧
      lookupD
        (extract_features (fun _ => 0) (List.replicate 30 1) 5 2 0 none none)
        "lag_30" 0 = 1 := by
  have h7 := (C5_amended (fun _ => 0) (List.replicate 30 1) 5 2 0 none
    none).1 (by decide)
  have h30 := (C5_amended (fun _ => 0) (List.replicate 30 1) 5 2 0 none
    none).2.1 (by decide)
  exact ⟨h7.trans (by decide), h30.trans (by decide)⟩

/-! ## Supporting lemmas: the heuristic branch of `predict` -/

/-- Boolean success discriminator for prediction results. -/
def isOkB : Except String PredResult → Bool
  | Except.ok _ => true
  | Except.error _ => false

theorem window_ne_nil {sales : List ℚ} (h : sales ≠ []) :
    (if 7 ≤ sales.length then lastN sales 7 else sales) ≠ [] := by
  split_ifs with h7
  · have hlen : (lastN sales 7).length = 7 := by
      simp only [lastN, List.length_drop]
      omega
    intro hnil
    rw [hnil] at hlen
    simp at hlen
  · exact h

theorem heuristic_eq {sales : List ℚ} (h : sales ≠ []) (s l : ℚ) :
    _heuristic_predict sales s l =
      listMean (if 7 ≤ sales.length then lastN sales 7 else sales) := by
  simp only [_heuristic_predict]
  rw [if_neg (window_ne_nil h)]

theorem listMean_nonneg {l : List ℚ} (h : ∀ x ∈ l, 0 ≤ x) : 0 ≤ listMean l := by
  unfold listMean
  exact div_nonneg (List.sum_nonneg h) (by positivity)

theorem window_nonneg {sales : List ℚ} (hpos : ∀ x ∈ sales, 0 ≤ x) :
    ∀ x ∈ (if 7 ≤ sales.length then lastN sales 7 else sales), 0 ≤ x := by
  intro x hx
  split_ifs at hx with h7
  · exact hpos x (List.mem_of_mem_drop hx)
  · exact hpos x hx

/-! ## C4 — validation errors exactly for the three bad-input conditions -/

/-- **C4.** `predict` returns a validation error (`ValueError` in the
source, `Except.error` here) if and only if the (defaulted) sales history
is empty, or the current stock is negative, or the lead time is
non-positive; for every payload satisfying all three constraints it
returns a result.  The embedding is typed, so the claim's "not a list"
disjunct has no inhabitant here (a non-list `salesHistory` is outside the
model); and `predict` is a pure function of its inputs — it writes no
state and never touches the persisted artifact, matching the claim's
"state and persisted artifact unchanged". -/
theorem C4_validation_iff (sqrtQ : ℚ → ℚ) (artifact : Option Artifact)
    (today : RefDate) (payload : Payload) :
    (∃ e, predict sqrtQ artifact today payload = Except.error e) ↔
      (payload.salesHistory.getD [] = [] ∨ payload.currentStock.getD 0 < 0 ∨
        payload.leadTimeDays.getD 7 ≤ 0) := by
  simp only [predict]
  split_ifs with h1 h2 h3
  · exact iff_of_true ⟨_, rfl⟩ (Or.inl h1)
  · exact iff_of_true ⟨_, rfl⟩ (Or.inr (Or.inl h2))
  · exact iff_of_true ⟨_, rfl⟩ (Or.inr (Or.inr h3))
  · constructor
    · rintro ⟨e, he⟩
      exact he.elim
    · rintro (hc | hc | hc)
      · exact absurd hc h1
      · exact absurd hc h2
      · exact absurd hc h3

/-! ## C9 — missing `currentStock` / `leadTimeDays` keys get defaults -/

/-- **C9.** A payload with missing `currentStock` and/or `leadTimeDays`
keys behaves exactly as if the defaults `0` and `7` had been supplied
(`payload.get("currentStock", 0)`, `payload.get("leadTimeDays", 7)`), and
— since `0 ≥ 0` and `7 > 0` pass validation — the absence of these two
keys is never reported as a validation error when the sales history is a
non-empty list. -/
theorem C9_defaults (sqrtQ : ℚ → ℚ) (artifact : Option Artifact)
    (today : RefDate) (sales : List ℚ) (pid cty : Option String) :
    (∀ st lt : Option ℚ,
      predict sqrtQ artifact today ⟨some sales, st, lt, pid, cty⟩ =
        predict sqrtQ artifact today
          ⟨some sales, some (st.getD 0), some (lt.getD 7), pid, cty⟩) ∧
      (sales ≠ [] →
        isOkB (predict sqrtQ artifact today
          ⟨some sales, none, none, pid, cty⟩) = true) := by
  refine ⟨fun st lt => rfl, fun h => ?_⟩
  simp only [predict, Option.getD_some, Option.getD_none]
  rw [if_neg h, if_neg (by norm_num : ¬(0 : ℚ) < 0),
    if_neg (by norm_num : ¬(7 : ℚ) ≤ 0)]
  rfl

/-- Witness for C9: omitted stock/lead-time keys on the history `[10]`. -/
theorem C9_witness :
    (predict (fun _ => 0) none ⟨0, 0, 0⟩ ⟨some [10], none, none, none, none⟩ =
      predict (fun _ => 0) none ⟨0, 0, 0⟩
        ⟨some [10], some 0, some 7, none, none⟩) ∧
      isOkB (predict (fun _ => 0) none ⟨0, 0, 0⟩
        ⟨some [10], none, none, none, none⟩) = true :=
  ⟨(C9_defaults (fun _ => 0) none ⟨0, 0, 0⟩ [10] none none).1 none none,
    (C9_defaults (fun _ => 0) none ⟨0, 0, 0⟩ [10] none none).2 (by decide)⟩

/-! ## Supporting lemmas: evaluating `predict` on the heuristic path -/

/-- Reduction of `predict` without a model artifact at a fully-supplied
valid payload, given evaluations of the intermediate quantities. -/
theorem predict_heuristic_eval {sales : List ℚ} {stock lead dm dm2 : ℚ}
    {dd qq : ℤ} {pid cty : Option String} (sqrtQ : ℚ → ℚ) (today : RefDate)
    (hne : sales ≠ []) (hst : ¬stock < 0) (hld : ¬lead ≤ 0)
    (hdm : _heuristic_predict sales stock lead = dm)
    (hr : max 0 (pyRound dm 2) = dm2)
    (hdd : (if 0 < dm2 then max 0 ⌊stock / dm2⌋ else 999) = dd)
    (hq : suggestedQty dm2 lead = qq) :
    predict sqrtQ none today ⟨some sales, some stock, some lead, pid, cty⟩ =
      Except.ok
        ⟨dm2, dd, qq, 1 / 2, "heuristic",
          (match pid with
           | some s => if s = "" then none else some s
           | none => none),
          (match cty with
           | some s => if s = "" then none else some s
           | none => none)⟩ := by
  simp only [predict, Option.getD_some]
  rw [if_neg hne, if_neg hst, if_neg hld, hdm, hr, hdd, hq]

/-- Evaluation of `predict` on the one-point history `[10]` with stock 0
and lead time 1 (heuristic path): demand 10, stockout in 0 days, reorder
`ceil(10·1·1.25) = 13`, confidence 1/2. -/
theorem predict_eval_10 (sqrtQ : ℚ → ℚ) (today : RefDate) :
    predict sqrtQ none today ⟨some [10], some 0, some 1, none, none⟩ =
      Except.ok ⟨10, 0, 13, 1 / 2, "heuristic", none, none⟩ := by
  have hdm : _heuristic_predict [10] 0 1 = 10 := by
    have h : _heuristic_predict [10] 0 1 = listMean [10] := rfl
    rw [h]
    norm_num [listMean]
  have hround : pyRound (10 : ℚ) 2 = 10 := by
    have hf : ⌊(10 : ℚ) * 10 ^ 2⌋ = 1000 := by norm_num [Int.floor_eq_iff]
    rw [pyRound_eval hf (by norm_num)]
    norm_num
  have hfl : ⌊(0 : ℚ) / 10⌋ = 0 := by norm_num
  have hc : ⌈(10 : ℚ) * 1 * SAFETY_FACTOR⌉ = 13 := by
    rw [Int.ceil_eq_iff]
    constructor <;> norm_num [SAFETY_FACTOR]
  exact predict_heuristic_eval sqrtQ today (by decide) (by norm_num)
    (by norm_num) hdm (by rw [hround]; norm_num)
    (by rw [if_pos (by norm_num), hfl]; norm_num)
    (by rw [suggestedQty, hc]; norm_num)

/-! ## C2 — end-to-end heuristic scenario

The spec's expected numbers are wrong: for the history
`[12, 15, 13, 20, 18, 14, 16, 22, 19, 17, 21, 14, 18, 20]` the *last
seven* values (`sales_history[-7:]`) are `[22, 19, 17, 21, 14, 18, 20]`,
whose mean is `131/7 ≈ 18.71` — the spec instead averaged the off-by-one
window `[16, 22, 19, 17, 21, 14, 18]` (positions −8 … −2), getting
`127/7 ≈ 18.14`.  The code therefore returns demand `18.71` and reorder
quantity `⌈18.71·7·1.25⌉ = 164`, not `18.14` and `159`; the stockout
horizon is `⌊120/18.71⌋ = 6` either way. -/

/-- The scenario's sales history. -/
def salesC2 : List ℚ := [12, 15, 13, 20, 18, 14, 16, 22, 19, 17, 21, 14, 18, 20]

/-- Full evaluation of `predict` on the scenario payload (heuristic path,
any square-root function and any current date). -/
theorem predict_salesC2_eval (sqrtQ : ℚ → ℚ) (today : RefDate) :
    predict sqrtQ none today ⟨some salesC2, some 120, some 7, none, none⟩ =
      Except.ok ⟨1871 / 100, 6, 164, 1 / 2, "heuristic", none, none⟩ := by
  have hdm : _heuristic_predict salesC2 120 7 = 131 / 7 := by
    have h : _heuristic_predict salesC2 120 7 =
        listMean [22, 19, 17, 21, 14, 18, 20] := by
      simp only [salesC2]
      rfl
    rw [h]
    norm_num [listMean]
  have hround : pyRound ((131 : ℚ) / 7) 2 = 1871 / 100 := by
    have hf : ⌊(131 : ℚ) / 7 * 10 ^ 2⌋ = 1871 := by
      norm_num [Int.floor_eq_iff]
    rw [pyRound_eval hf (by norm_num)]
    norm_num
  have hfl : ⌊(120 : ℚ) / (1871 / 100)⌋ = 6 := by
    norm_num [Int.floor_eq_iff]
  have hc : ⌈(1871 : ℚ) / 100 * 7 * SAFETY_FACTOR⌉ = 164 := by
    rw [Int.ceil_eq_iff]
    constructor <;> norm_num [SAFETY_FACTOR]
  exact predict_heuristic_eval sqrtQ today (by decide) (by norm_num)
    (by norm_num) hdm (by rw [hround]; norm_num)
    (by rw [if_pos (by norm_num), hfl]; norm_num)
    (by rw [suggestedQty, hc]; norm_num)

/-- **C2, counterexample.** On the scenario payload the heuristic path
returns `predictedDailyDemand = 1871/100 = 18.71 ≠ 18.14` and
`suggestedReorderQty = 164 ≠ 159`: the claim's expected values (mean
`18.14` of the off-by-one window, reorder `159`) are not what the code
computes. -/
theorem C2_counterexample :
    predict (fun _ => 0) none ⟨0, 0, 0⟩
        ⟨some salesC2, some 120, some 7, none, none⟩ =
      Except.ok ⟨1871 / 100, 6, 164, 1 / 2, "heuristic", none, none⟩ ∧
      (1871 / 100 : ℚ) ≠ 907 / 50 ∧ (164 : ℤ) ≠ 159 :=
  ⟨predict_salesC2_eval (fun _ => 0) ⟨0, 0, 0⟩, by norm_num, by decide⟩

/-- **C2, amended.** For
`salesHistory = [12,15,13,20,18,14,16,22,19,17,21,14,18,20]`,
`currentStock = 120`, `leadTimeDays = 7`, with no persisted model
artifact, `predict` returns `method = "heuristic"`,
`predictedDailyDemand` = the mean of the last 7 values
(`[22,19,17,21,14,18,20]`, mean `131/7`) rounded to 2 decimals = `18.71`,
`daysToStockout = ⌊120/18.71⌋ = 6`,
`suggestedReorderQty = ⌈18.71·7·1.25⌉ = 164`, and `confidence = 0.5` —
for any square-root function and any current date. -/
theorem C2_heuristic_scenario (sqrtQ : ℚ → ℚ) (today : RefDate) :
    predict sqrtQ none today ⟨some salesC2, some 120, some 7, none, none⟩ =
      Except.ok ⟨1871 / 100, 6, 164, 1 / 2, "heuristic", none, none⟩ :=
  predict_salesC2_eval sqrtQ today

/-! ## C3 — days-to-stockout versus the 999 sentinel -/

/-- **C3, counterexample.** `daysToStockout = 999` does *not* hold exactly
when the demand is 0: with history `[10]` and stock `9990` the heuristic
demand is `10 ≠ 0` and `⌊9990/10⌋ = 999`, so the returned days-to-stockout
is the numeric value 999 with a positive demand — the "exactly when"
direction of the claim fails. -/
theorem C3_counterexample :
    predict (fun _ => 0) none ⟨0, 0, 0⟩
        ⟨some [10], some 9990, some 7, none, none⟩ =
      Except.ok ⟨10, 999, 88, 1 / 2, "heuristic", none, none⟩ ∧
      (10 : ℚ) ≠ 0 := by
  constructor
  · have hdm : _heuristic_predict [10] 9990 7 = 10 := by
      have h : _heuristic_predict [10] 9990 7 = listMean [10] := rfl
      rw [h]
      norm_num [listMean]
    have hround : pyRound (10 : ℚ) 2 = 10 := by
      have hf : ⌊(10 : ℚ) * 10 ^ 2⌋ = 1000 := by norm_num [Int.floor_eq_iff]
      rw [pyRound_eval hf (by norm_num)]
      norm_num
    have hfl : ⌊(9990 : ℚ) / 10⌋ = 999 := by norm_num [Int.floor_eq_iff]
    have hc : ⌈(10 : ℚ) * 7 * SAFETY_FACTOR⌉ = 88 := by
      rw [Int.ceil_eq_iff]
      constructor <;> norm_num [SAFETY_FACTOR]
    exact predict_heuristic_eval _ _ (by decide) (by norm_num) (by norm_num)
      hdm (by rw [hround]; norm_num)
      (by rw [if_pos (by norm_num), hfl]; norm_num)
      (by rw [suggestedQty, hc]; norm_num)
  · norm_num

/-- **C3, amended.** For every valid prediction, the post-processed demand
is non-negative; if it is 0 the returned `daysToStockout` is the sentinel
999, and if it is positive the returned `daysToStockout` equals
`⌊currentStock / demand⌋` — which may itself coincide with the numeric
value 999, so "equals 999" holds *if* (not *exactly when*) the demand is
zero. -/
theorem C3_amended (sqrtQ : ℚ → ℚ) (artifact : Option Artifact)
    (today : RefDate) (payload : Payload) (r : PredResult)
    (h : predict sqrtQ artifact today payload = Except.ok r) :
    (r.predictedDailyDemand = 0 → r.daysToStockout = 999) ∧
      (0 < r.predictedDailyDemand →
        r.daysToStockout =
          ⌊payload.currentStock.getD 0 / r.predictedDailyDemand⌋) ∧
      0 ≤ r.predictedDailyDemand := by
  simp only [predict] at h
  by_cases hc1 : payload.salesHistory.getD [] = []
  · rw [if_pos hc1] at h
    injection h
  rw [if_neg hc1] at h
  by_cases hc2 : payload.currentStock.getD 0 < 0
  · rw [if_pos hc2] at h
    injection h
  rw [if_neg hc2] at h
  by_cases hc3 : payload.leadTimeDays.getD 7 ≤ 0
  · rw [if_pos hc3] at h
    injection h
  rw [if_neg hc3] at h
  rw [Except.ok.injEq] at h
  subst h
  refine ⟨?_, ?_, ?_⟩
  · intro h0
    dsimp only at h0 ⊢
    rw [h0]
    norm_num
  · intro hd
    dsimp only at hd ⊢
    rw [if_pos hd]
    have hst : (0 : ℚ) ≤ payload.currentStock.getD 0 := le_of_not_lt hc2
    exact max_eq_right (Int.floor_nonneg.2 (div_nonneg hst (le_of_lt hd)))
  · exact le_max_left _ _

/-- Witness for C3 on the history `[10]`, stock 0, lead time 1 (demand 10,
days-to-stockout `⌊0/10⌋ = 0`). -/
theorem C3_witness :
    ((10 : ℚ) = 0 → (0 : ℤ) = 999) ∧
      ((0 : ℚ) < 10 → (0 : ℤ) = ⌊(0 : ℚ) / 10⌋) ∧ (0 : ℚ) ≤ 10 :=
  C3_amended (fun _ => 0) none ⟨0, 0, 0⟩
    ⟨some [10], some 0, some 1, none, none⟩ _
    (predict_eval_10 (fun _ => 0) ⟨0, 0, 0⟩)

/-! ## C8 — confidence -/

/-- Modelled from the spec: confidence is
`1 − (rolling_std / rolling_mean)` over the shortest configured window,
with the coefficient of variation treated as 1 when the rolling mean is
not positive, clamped to `[0, 1]` and rounded to 3 decimals. -/
def confidence_spec (rolling_std rolling_mean : ℚ) : ℚ :=
  pyRound
    (max 0 (min 1 (1 - (if 0 < rolling_mean
      then rolling_std / rolling_mean else 1)))) 3

/-- **C8.** Every successful `predict` call returns a confidence in
`[0, 1]`: on the heuristic path (no artifact) it is exactly `1/2`, and on
the model path it equals the spec formula `confidence_spec` applied to the
`rolling_std_7` and `rolling_mean_7` features of the query (looked up with
the source's default 1). -/
theorem C8_confidence (sqrtQ : ℚ → ℚ) (artifact : Option Artifact)
    (today : RefDate) (payload : Payload) (r : PredResult)
    (h : predict sqrtQ artifact today payload = Except.ok r) :
    (0 ≤ r.confidence ∧ r.confidence ≤ 1) ∧
      r.confidence =
        (match artifact with
         | none => 1 / 2
         | some _ =>
             confidence_spec
               (lookupD
                 (extract_features sqrtQ (payload.salesHistory.getD [])
                   (payload.currentStock.getD 0) (payload.leadTimeDays.getD 7)
                   0 payload.city (some today)) "rolling_std_7" 1)
               (lookupD
                 (extract_features sqrtQ (payload.salesHistory.getD [])
                   (payload.currentStock.getD 0) (payload.leadTimeDays.getD 7)
                   0 payload.city (some today)) "rolling_mean_7" 1)) := by
  simp only [predict] at h
  by_cases hc1 : payload.salesHistory.getD [] = []
  · rw [if_pos hc1] at h
    injection h
  rw [if_neg hc1] at h
  by_cases hc2 : payload.currentStock.getD 0 < 0
  · rw [if_pos hc2] at h
    injection h
  rw [if_neg hc2] at h
  by_cases hc3 : payload.leadTimeDays.getD 7 ≤ 0
  · rw [if_pos hc3] at h
    injection h
  rw [if_neg hc3] at h
  rw [Except.ok.injEq] at h
  subst h
  cases artifact with
  | none => exact ⟨⟨by norm_num, by norm_num⟩, rfl⟩
  | some a =>
      refine ⟨⟨?_, ?_⟩, rfl⟩
      · exact pyRound_nonneg _ (le_max_left _ _)
      · exact pyRound_le_one _ (max_le (by norm_num) (min_le_left _ _))

/-- Witness for C8 on the heuristic path (history `[10]`): confidence
`1/2 ∈ [0, 1]`. -/
theorem C8_witness :
    (0 ≤ (1 / 2 : ℚ) ∧ (1 / 2 : ℚ) ≤ 1) ∧ (1 / 2 : ℚ) = 1 / 2 :=
  C8_confidence (fun _ => 0) none ⟨0, 0, 0⟩
    ⟨some [10], some 0, some 1, none, none⟩ _
    (predict_eval_10 (fun _ => 0) ⟨0, 0, 0⟩)

/-! ## C10 — heuristic output depends only on the sales history -/

/-- **C10.** On the heuristic path (no artifact), for any two valid
payloads with the same sales history but different stock, lead time,
product id or city, `predict` returns the same predicted daily demand and
the same confidence; the demand is `max(0, round(mean(last-7-window), 2))`
— which equals the plain rounded mean whenever the history is
non-negative, as the data model requires — and the confidence is `1/2`. -/
theorem C10_heuristic_noninterference (sqrtQ : ℚ → ℚ) (today : RefDate)
    (sales : List ℚ) (s1 l1 s2 l2 : ℚ) (pid1 cty1 pid2 cty2 : Option String)
    (h : sales ≠ []) (hs1 : ¬s1 < 0) (hl1 : ¬l1 ≤ 0) (hs2 : ¬s2 < 0)
    (hl2 : ¬l2 ≤ 0) :
    ((predict sqrtQ none today ⟨some sales, some s1, some l1, pid1, cty1⟩).map
        (fun r => (r.predictedDailyDemand, r.confidence)) =
      (predict sqrtQ none today
          ⟨some sales, some s2, some l2, pid2, cty2⟩).map
        (fun r => (r.predictedDailyDemand, r.confidence))) ∧
      ((predict sqrtQ none today
          ⟨some sales, some s1, some l1, pid1, cty1⟩).map
          (fun r => (r.predictedDailyDemand, r.confidence)) =
        Except.ok
          (max 0 (pyRound (listMean
            (if 7 ≤ sales.length then lastN sales 7 else sales)) 2), 1 / 2)) ∧
      ((∀ x ∈ sales, 0 ≤ x) →
        (predict sqrtQ none today
            ⟨some sales, some s1, some l1, pid1, cty1⟩).map
            (fun r => r.predictedDailyDemand) =
          Except.ok (pyRound (listMean
            (if 7 ≤ sales.length then lastN sales 7 else sales)) 2)) := by
  refine ⟨?_, ?_, fun hpos => ?_⟩
  · simp only [predict, Option.getD_some, if_neg h, if_neg hs1, if_neg hl1,
      if_neg hs2, if_neg hl2, Except.map]
    rfl
  · simp only [predict, Option.getD_some, if_neg h, if_neg hs1, if_neg hl1,
      Except.map]
    rw [heuristic_eq h]
  · simp only [predict, Option.getD_some, if_neg h, if_neg hs1, if_neg hl1,
      Except.map]
    rw [heuristic_eq h, max_eq_right
      (pyRound_nonneg _ (listMean_nonneg (window_nonneg hpos)))]

/-- Witness for C10: history `[10]` with (stock, lead) = (0, 1) versus
(5, 2). -/
theorem C10_witness :
    ((predict (fun _ => 0) none ⟨0, 0, 0⟩
        ⟨some [10], some 0, some 1, none, none⟩).map
        (fun r => (r.predictedDailyDemand, r.confidence)) =
      (predict (fun _ => 0) none ⟨0, 0, 0⟩
          ⟨some [10], some 5, some 2, none, none⟩).map
        (fun r => (r.predictedDailyDemand, r.confidence))) ∧
      ((predict (fun _ => 0) none ⟨0, 0, 0⟩
          ⟨some [10], some 0, some 1, none, none⟩).map
          (fun r => (r.predictedDailyDemand, r.confidence)) =
        Except.ok (max 0 (pyRound (listMean [10]) 2), 1 / 2)) ∧
      ((predict (fun _ => 0) none ⟨0, 0, 0⟩
          ⟨some [10], some 0, some 1, none, none⟩).map
          (fun r => r.predictedDailyDemand) =
        Except.ok (pyRound (listMean [10]) 2)) := by
  have T := C10_heuristic_noninterference (fun _ => 0) ⟨0, 0, 0⟩ [10] 0 1 5 2
    none none none none (by decide) (by norm_num) (by norm_num) (by norm_num)
    (by norm_num)
  have hpos : ∀ x ∈ ([10] : List ℚ), 0 ≤ x := by
    intro x hx
    rw [List.mem_singleton] at hx
    subst hx
    norm_num
  exact ⟨T.1, T.2.1, T.2.2 hpos⟩
